import Mathlib

/-!
Verification of the multi-provider streaming response abstraction of the
osram-cli repository.  The repository ships two copies of the provider code:
`osram_cli/providers.py` (namespace `Src` below) and
`build/lib/osram_cli/providers.py` (namespace `BuildLib` below); the copies
differ in their stream decoders, so both are embedded where they differ.
JSON values are modelled by an inductive `Json` type, `json.loads` by a
fuel-indexed recursive-descent routine `json_loads`, and the dynamically
typed Python operations appearing in the decoders (`in`, indexing, `.get`,
truthiness) by explicit `Except`-valued functions so that uncaught Python
exceptions are visible in the model.
-/

/-- JSON values as produced by `json.loads`; numbers are rationals. -/
inductive Json where
  | null : Json
  | bool (b : Bool) : Json
  | num (q : ℚ) : Json
  | str (s : String) : Json
  | arr (xs : List Json) : Json
  | obj (kvs : List (String × Json)) : Json

/-- Python's `v == s` for a JSON value `v` and a string constant `s`: only
a string value can compare equal to a string. -/
def jsonEqStr (v : Json) (s : String) : Bool :=
  match v with
  | Json.str s2 => s2 == s
  | _ => false

def Json.isStr : Json → Bool
  | Json.str _ => true
  | _ => false

/-- Python exception kinds that the decoders can raise. -/
inductive PyErr where
  | jsonDecodeErr : PyErr
  | typeErr : PyErr
  | keyErr : PyErr
  | indexErr : PyErr
  | attributeErr : PyErr
deriving DecidableEq, Repr

def lbraceC : Char := Char.ofNat 123
def rbraceC : Char := Char.ofNat 125

def isWsC (c : Char) : Bool :=
  c = ' ' ∨ c = '\t' ∨ c = '\n' ∨ c = '\r'

def skipWs : List Char → List Char
  | [] => []
  | c :: cs => if isWsC c then skipWs cs else c :: cs

def isDigitC (c : Char) : Bool := '0' ≤ c ∧ c ≤ '9'

def digitsToNat (ds : List Char) : Nat :=
  ds.foldl (fun acc c => acc * 10 + (c.toNat - '0'.toNat)) 0

def hexVal (c : Char) : Option Nat :=
  if isDigitC c then some (c.toNat - '0'.toNat)
  else if 'a' ≤ c ∧ c ≤ 'f' then some (c.toNat - 'a'.toNat + 10)
  else if 'A' ≤ c ∧ c ≤ 'F' then some (c.toNat - 'A'.toNat + 10)
  else none

/-- Parse the body of a JSON string literal (the opening quote has already
been consumed), handling the escape sequences of the JSON grammar; the
fuel is an upper bound on the remaining input length, so the recursion is
structural and concrete runs reduce definitionally. -/
def parseStrBody : Nat → List Char → List Char → Option (String × List Char)
  | 0, _, _ => none
  | Nat.succ _, _acc, [] => none
  | Nat.succ n, acc, c :: cs =>
    if c = '"' then some (String.mk acc.reverse, cs)
    else if c = '\\' then
      match cs with
      | [] => none
      | e :: cs2 =>
        if e = '"' then parseStrBody n ('"' :: acc) cs2
        else if e = '\\' then parseStrBody n ('\\' :: acc) cs2
        else if e = '/' then parseStrBody n ('/' :: acc) cs2
        else if e = 'n' then parseStrBody n ('\n' :: acc) cs2
        else if e = 't' then parseStrBody n ('\t' :: acc) cs2
        else if e = 'r' then parseStrBody n ('\r' :: acc) cs2
        else if e = 'b' then parseStrBody n (Char.ofNat 8 :: acc) cs2
        else if e = 'f' then parseStrBody n (Char.ofNat 12 :: acc) cs2
        else if e = 'u' then
          match cs2 with
          | h1 :: h2 :: h3 :: h4 :: cs3 =>
            match hexVal h1, hexVal h2, hexVal h3, hexVal h4 with
            | some a, some b, some c3, some d =>
              parseStrBody n (Char.ofNat (((a * 16 + b) * 16 + c3) * 16 + d) :: acc) cs3
            | _, _, _, _ => none
          | _ => none
        else none
    else parseStrBody n (c :: acc) cs

/-- Parse a JSON number starting at the current position (first char is a
digit or a minus sign). -/
def parseNum (cs : List Char) : Option (ℚ × List Char) :=
  let (neg, cs1) := match cs with
    | c :: rest => if c = '-' then (true, rest) else (false, cs)
    | [] => (false, cs)
  let intDs := cs1.takeWhile isDigitC
  let cs2 := cs1.dropWhile isDigitC
  if intDs.isEmpty then none else
  let ip : ℚ := (digitsToNat intDs : ℚ)
  match cs2 with
  | '.' :: rest =>
    let fracDs := rest.takeWhile isDigitC
    let rest2 := rest.dropWhile isDigitC
    if fracDs.isEmpty then none
    else
      let mant := ip + (digitsToNat fracDs : ℚ) / ((10 : ℚ) ^ fracDs.length)
      some (if neg then -mant else mant, rest2)
  | _ => some (if neg then -ip else ip, cs2)

/-- Parsing mode: a single value, the items of an array, or the members of
an object. -/
inductive PMode where
  | val : PMode
  | items : PMode
  | fields : PMode

/-- Intermediate parse results for the three modes. -/
inductive PRes where
  | v (j : Json) : PRes
  | items (xs : List Json) : PRes
  | fields (kvs : List (String × Json)) : PRes

/-- Fuel-indexed recursive-descent JSON routine covering the three
grammar productions in one definition; structural in the fuel so that
concrete runs reduce definitionally. -/
def parseF : Nat → PMode → List Char → Option (PRes × List Char)
  | 0, _, _ => none
  | Nat.succ fuel, PMode.val, cs =>
    (match skipWs cs with
     | [] => none
     | c :: rest =>
       if c = 'n' then
         match rest with
         | 'u' :: 'l' :: 'l' :: rest2 => some (PRes.v Json.null, rest2)
         | _ => none
       else if c = 't' then
         match rest with
         | 'r' :: 'u' :: 'e' :: rest2 => some (PRes.v (Json.bool true), rest2)
         | _ => none
       else if c = 'f' then
         match rest with
         | 'a' :: 'l' :: 's' :: 'e' :: rest2 => some (PRes.v (Json.bool false), rest2)
         | _ => none
       else if c = '"' then
         match parseStrBody (rest.length + 1) [] rest with
         | some (s, rest2) => some (PRes.v (Json.str s), rest2)
         | none => none
       else if c = '[' then
         match skipWs rest with
         | d :: rest2 =>
           if d = ']' then some (PRes.v (Json.arr []), rest2)
           else
             match parseF fuel PMode.items (d :: rest2) with
             | some (PRes.items xs, rest3) => some (PRes.v (Json.arr xs), rest3)
             | _ => none
         | [] => none
       else if c = lbraceC then
         match skipWs rest with
         | d :: rest2 =>
           if d = rbraceC then some (PRes.v (Json.obj []), rest2)
           else
             match parseF fuel PMode.fields (d :: rest2) with
             | some (PRes.fields kvs, rest3) => some (PRes.v (Json.obj kvs), rest3)
             | _ => none
         | [] => none
       else if c = '-' ∨ isDigitC c then
         match parseNum (c :: rest) with
         | some (q, rest2) => some (PRes.v (Json.num q), rest2)
         | none => none
       else none)
  | Nat.succ fuel, PMode.items, cs =>
    (match parseF fuel PMode.val cs with
     | some (PRes.v j, rest) =>
       (match skipWs rest with
        | c :: rest2 =>
          if c = ']' then some (PRes.items [j], rest2)
          else if c = ',' then
            match parseF fuel PMode.items rest2 with
            | some (PRes.items xs, rest3) => some (PRes.items (j :: xs), rest3)
            | _ => none
          else none
        | [] => none)
     | _ => none)
  | Nat.succ fuel, PMode.fields, cs =>
    (match skipWs cs with
     | c :: rest =>
       if c = '"' then
         match parseStrBody (rest.length + 1) [] rest with
         | some (k, rest2) =>
           (match skipWs rest2 with
            | d :: rest3 =>
              if d = ':' then
                match parseF fuel PMode.val rest3 with
                | some (PRes.v v, rest4) =>
                  (match skipWs rest4 with
                   | e :: rest5 =>
                     if e = rbraceC then some (PRes.fields [(k, v)], rest5)
                     else if e = ',' then
                       match parseF fuel PMode.fields rest5 with
                       | some (PRes.fields kvs, rest6) => some (PRes.fields ((k, v) :: kvs), rest6)
                       | _ => none
                     else none
                   | [] => none)
                | _ => none
              else none
            | [] => none)
         | none => none
       else none
     | [] => none)

/-- Model of Python's `json.loads`: parse a complete JSON document,
requiring that nothing but whitespace remains; any failure stands for a
raised `json.JSONDecodeError`. -/
def json_loads (s : String) : Except PyErr Json :=
  match parseF (2 * s.data.length + 2) PMode.val s.data with
  | some (PRes.v j, rest) =>
    if skipWs rest = [] then Except.ok j else Except.error PyErr.jsonDecodeErr
  | _ => Except.error PyErr.jsonDecodeErr

/-- Python truthiness of a JSON value. -/
def pyTruthy : Json → Bool
  | Json.null => false
  | Json.bool b => b
  | Json.num q => q ≠ 0
  | Json.str s => s ≠ ""
  | Json.arr xs => ¬xs.isEmpty
  | Json.obj kvs => ¬kvs.isEmpty

/-- `listLeads xs ys`: the list `ys` begins with `xs`. -/
def listLeads : List Char → List Char → Bool
  | [], _ => true
  | _ :: _, [] => false
  | x :: xs, y :: ys => x == y && listLeads xs ys

/-- `listOccurs needle hay`: `needle` occurs contiguously inside `hay`. -/
def listOccurs : List Char → List Char → Bool
  | needle, [] => needle.isEmpty
  | needle, y :: tl => listLeads needle (y :: tl) || listOccurs needle tl

def strContains (hay needle : String) : Bool :=
  listOccurs needle.data hay.data

/-- Python's `s.startswith(pre)`. -/
def strStartsWith (s pre : String) : Bool :=
  listLeads pre.data s.data

/-- Python's `s[n:]`. -/
def strDropN (s : String) (n : Nat) : String :=
  String.mk (s.data.drop n)

/-- One left-to-right pass of Python's `s.replace(pat, rep)` for a
non-empty pattern, fuelled by the length of the subject. -/
def replaceList (pat rep : List Char) : Nat → List Char → List Char
  | _, [] => []
  | 0, cs => cs
  | Nat.succ n, c :: cs =>
    if pat ≠ [] ∧ listLeads pat (c :: cs) then
      rep ++ replaceList pat rep n ((c :: cs).drop pat.length)
    else
      c :: replaceList pat rep n cs

/-- Python's `s.replace(pat, rep)`. -/
def strReplace (s pat rep : String) : String :=
  String.mk (replaceList pat.data rep.data s.data.length s.data)

/-- Python's `needle in v` for a string needle: key membership for a dict,
element membership for a list, substring test for a string, and a
`TypeError` for every other value. -/
def pyContains (needle : String) : Json → Except PyErr Bool
  | Json.obj kvs => Except.ok (kvs.any (fun kv => kv.1 = needle))
  | Json.arr xs => Except.ok (xs.any (fun x => jsonEqStr x needle))
  | Json.str s => Except.ok (strContains s needle)
  | _ => Except.error PyErr.typeErr

/-- Python's `v[key]` for a string key: dict lookup (`KeyError` when the
key is absent), `TypeError` for every other value. -/
def pyIndexStr (key : String) : Json → Except PyErr Json
  | Json.obj kvs =>
    match kvs.lookup key with
    | some v => Except.ok v
    | none => Except.error PyErr.keyErr
  | _ => Except.error PyErr.typeErr

/-- Python's `v[0]`: first element of a list (`IndexError` when empty),
first character of a string, `KeyError` for a dict whose keys are strings,
`TypeError` otherwise. -/
def pyIndexZero : Json → Except PyErr Json
  | Json.arr [] => Except.error PyErr.indexErr
  | Json.arr (x :: _) => Except.ok x
  | Json.str s =>
    if s = "" then Except.error PyErr.indexErr
    else Except.ok (Json.str (String.mk (s.data.take 1)))
  | Json.obj _ => Except.error PyErr.keyErr
  | _ => Except.error PyErr.typeErr

/-- Python's `v.get(key, default)`: only dicts have `.get`; every other
value raises `AttributeError`. -/
def pyGet (key : String) (dflt : Json) : Json → Except PyErr Json
  | Json.obj kvs =>
    match kvs.lookup key with
    | some v => Except.ok v
    | none => Except.ok dflt
  | _ => Except.error PyErr.attributeErr

/-- Python's `str.strip()` restricted to the whitespace the decoders meet. -/
def pyStrip (s : String) : String :=
  String.mk (((s.data.dropWhile isWsC).reverse.dropWhile isWsC).reverse)

/-!
## Stream decoders

Each provider's `parse_stream` is a generator over the lines of the HTTP
response.  A line is modelled as the decoded string it carries; the
generator is modelled by a per-line step followed by a fold over the line
list.  An uncaught Python exception aborts the generator: the fragments
yielded before the bad line have already been delivered, no later line is
processed.
-/

/-- Outcome of processing one line: yield nothing, yield one fragment, or
raise an uncaught exception. -/
inductive LineOut where
  | skip : LineOut
  | emit (j : Json) : LineOut
  | fail (e : PyErr) : LineOut

/-- Result of consuming an entire line stream: the fragments yielded in
order, and the uncaught exception that aborted the generator, if any. -/
structure DecodeOut where
  frags : List Json
  error : Option PyErr

/-- Fold a per-line step over the line stream; a `fail` step aborts. -/
def runStream (step : String → LineOut) : List String → DecodeOut
  | [] => { frags := [], error := none }
  | l :: rest =>
    match step l with
    | LineOut.skip => runStream step rest
    | LineOut.emit j =>
      let r := runStream step rest
      { frags := j :: r.frags, error := r.error }
    | LineOut.fail e => { frags := [], error := some e }

/-- Envelope extraction shared by the zai and openai decoders:
`if "choices" in data and data["choices"]:` then
`data["choices"][0].get("delta", {}).get("content", "")`, yielded when
truthy. -/
def choicesDeltaExtract (data : Json) : Except PyErr (Option Json) := do
  let b ← pyContains "choices" data
  if b then
    let ch ← pyIndexStr "choices" data
    if pyTruthy ch then
      let e0 ← pyIndexZero ch
      let delta ← pyGet "delta" (Json.obj []) e0
      let content ← pyGet "content" (Json.str "") delta
      if pyTruthy content then return some content else return none
    else return none
  else return none

/-- Envelope extraction of the claude decoder:
`if data.get("type") == "content_block_delta":` then
`data.get("delta", {}).get("text", "")`, yielded when truthy. -/
def contentBlockDeltaExtract (data : Json) : Except PyErr (Option Json) := do
  let t ← pyGet "type" Json.null data
  if jsonEqStr t "content_block_delta" then
    let delta ← pyGet "delta" (Json.obj []) data
    let content ← pyGet "text" (Json.str "") delta
    if pyTruthy content then return some content else return none
  else return none

/-- Envelope extraction of the gemini decoder:
`if "candidates" in data and data["candidates"]:` then
`data["candidates"][0].get("content", {}).get("parts", [{}])[0].get("text", "")`,
yielded when truthy. -/
def candidatesExtract (data : Json) : Except PyErr (Option Json) := do
  let b ← pyContains "candidates" data
  if b then
    let cand ← pyIndexStr "candidates" data
    if pyTruthy cand then
      let c0 ← pyIndexZero cand
      let content ← pyGet "content" (Json.obj []) c0
      let parts ← pyGet "parts" (Json.arr [Json.obj []]) content
      let p0 ← pyIndexZero parts
      let text ← pyGet "text" (Json.str "") p0
      if pyTruthy text then return some text else return none
    else return none
  else return none

/-- Envelope extraction of the qwen decoder:
`if "output" in data and "choices" in data["output"]:` then
`data["output"]["choices"][0].get("message", {}).get("content", "")`,
yielded when truthy. -/
def outputChoicesExtract (data : Json) : Except PyErr (Option Json) := do
  let b ← pyContains "output" data
  if b then
    let out ← pyIndexStr "output" data
    let b2 ← pyContains "choices" out
    if b2 then
      let ch ← pyIndexStr "choices" out
      let c0 ← pyIndexZero ch
      let msg ← pyGet "message" (Json.obj []) c0
      let content ← pyGet "content" (Json.str "") msg
      if pyTruthy content then return some content else return none
    else return none
  else return none

/-- Turn an extraction outcome into a line outcome. -/
def ofExtract : Except PyErr (Option Json) → LineOut
  | Except.error e => LineOut.fail e
  | Except.ok none => LineOut.skip
  | Except.ok (some j) => LineOut.emit j

/-- A `data: `-prefixed line step with no `try`/`except` and no `[DONE]`
check: a `json.loads` failure is an uncaught `JSONDecodeError`.  This is
the shape of the zai, claude and openai decoders in
`osram_cli/providers.py`. -/
def sseLineStrict (extract : Json → Except PyErr (Option Json)) (line : String) : LineOut :=
  if line = "" then LineOut.skip
  else if strStartsWith line "data: " then
    match json_loads (strDropN line 6) with
    | Except.error e => LineOut.fail e
    | Except.ok data => ofExtract (extract data)
  else LineOut.skip

/-- A `data: `-prefixed line step wrapped in `try ... except
json.JSONDecodeError: continue`, without a `[DONE]` check: the shape of the
claude decoder in `build/lib/osram_cli/providers.py`. -/
def sseLineCaught (extract : Json → Except PyErr (Option Json)) (line : String) : LineOut :=
  if line = "" then LineOut.skip
  else if strStartsWith line "data: " then
    match json_loads (strDropN line 6) with
    | Except.error _ => LineOut.skip
    | Except.ok data => ofExtract (extract data)
  else LineOut.skip

/-- A `data: `-prefixed line step that first skips an empty payload or a
`[DONE]` marker and then parses under `try ... except
json.JSONDecodeError: continue`: the shape of the zai and openai decoders
in `build/lib/osram_cli/providers.py`. -/
def sseLineDone (extract : Json → Except PyErr (Option Json)) (line : String) : LineOut :=
  if line = "" then LineOut.skip
  else if strStartsWith line "data: " then
    let dataStr := strDropN line 6
    if dataStr = "" ∨ pyStrip dataStr = "[DONE]" then LineOut.skip
    else
      match json_loads dataStr with
      | Except.error _ => LineOut.skip
      | Except.ok data => ofExtract (extract data)
  else LineOut.skip

/-- A bare-JSON line step under `try ... except json.JSONDecodeError:
continue`: the shape of the gemini and qwen decoders, identical in both
copies. -/
def rawLineCaught (extract : Json → Except PyErr (Option Json)) (line : String) : LineOut :=
  if line = "" then LineOut.skip
  else
    match json_loads line with
    | Except.error _ => LineOut.skip
    | Except.ok data => ofExtract (extract data)

namespace Src

/-- `ZhipuProvider.parse_stream` of `osram_cli/providers.py` (lines 39-48):
no `try`/`except`, no `[DONE]` check. -/
def ZhipuProvider.parse_stream (lines : List String) : DecodeOut :=
  runStream (sseLineStrict choicesDeltaExtract) lines

/-- `AnthropicProvider.parse_stream` of `osram_cli/providers.py`
(lines 66-75): no `try`/`except`. -/
def AnthropicProvider.parse_stream (lines : List String) : DecodeOut :=
  runStream (sseLineStrict contentBlockDeltaExtract) lines

/-- `GoogleProvider.parse_stream` of `osram_cli/providers.py`
(lines 99-110); the copy in `build/lib` is textually identical. -/
def GoogleProvider.parse_stream (lines : List String) : DecodeOut :=
  runStream (rawLineCaught candidatesExtract) lines

/-- `OpenAIProvider.parse_stream` of `osram_cli/providers.py`
(lines 126-135): no `try`/`except`, no `[DONE]` check. -/
def OpenAIProvider.parse_stream (lines : List String) : DecodeOut :=
  runStream (sseLineStrict choicesDeltaExtract) lines

/-- `QwenProvider.parse_stream` of `osram_cli/providers.py`
(lines 155-166); the copy in `build/lib` is textually identical. -/
def QwenProvider.parse_stream (lines : List String) : DecodeOut :=
  runStream (rawLineCaught outputChoicesExtract) lines

end Src

namespace BuildLib

/-- `ZhipuProvider.parse_stream` of `build/lib/osram_cli/providers.py`
(lines 103-120): skips empty and `[DONE]` payloads, catches
`json.JSONDecodeError`. -/
def ZhipuProvider.parse_stream (lines : List String) : DecodeOut :=
  runStream (sseLineDone choicesDeltaExtract) lines

/-- `AnthropicProvider.parse_stream` of `build/lib/osram_cli/providers.py`
(lines 138-151): catches `json.JSONDecodeError`. -/
def AnthropicProvider.parse_stream (lines : List String) : DecodeOut :=
  runStream (sseLineCaught contentBlockDeltaExtract) lines

/-- `OpenAIProvider.parse_stream` of `build/lib/osram_cli/providers.py`
(lines 203-220): skips empty and `[DONE]` payloads, catches
`json.JSONDecodeError`. -/
def OpenAIProvider.parse_stream (lines : List String) : DecodeOut :=
  runStream (sseLineDone choicesDeltaExtract) lines

end BuildLib

/-!
## Request formatters

`prepare_headers` and `prepare_body` are textually identical in both copies
of `providers.py`, so they are embedded once.  A message is the dict
`{"role": ..., "content": ...}` the caller builds; headers are modelled as
association lists of header name to value.
-/

/-- A role-tagged conversation message. -/
structure Message where
  role : String
  content : String
deriving DecidableEq, Repr

/-- The per-provider slice of the configuration consumed by
`BaseProvider.__init__`. -/
structure ProvCfg where
  api_key : String
  model : String
  endpoint : String
deriving DecidableEq, Repr

/-- The JSON object a `Message` dict serializes to. -/
def msgJson (m : Message) : Json :=
  Json.obj [("role", Json.str m.role), ("content", Json.str m.content)]

def ZhipuProvider.prepare_headers (pc : ProvCfg) : List (String × String) :=
  [("Authorization", "Bearer " ++ pc.api_key), ("Content-Type", "application/json")]

def ZhipuProvider.prepare_body (pc : ProvCfg) (messages : List Message) : Json :=
  Json.obj [("model", Json.str pc.model),
            ("messages", Json.arr (messages.map msgJson)),
            ("stream", Json.bool true)]

def AnthropicProvider.prepare_headers (pc : ProvCfg) : List (String × String) :=
  [("x-api-key", pc.api_key),
   ("Content-Type", "application/json"),
   ("anthropic-version", "2023-06-01")]

/-- The comprehension `[{"role": msg["role"], "content": msg["content"]}
for msg in messages]`. -/
def AnthropicProvider.mapMessages : List Message → List Json
  | [] => []
  | m :: rest =>
    Json.obj [("role", Json.str m.role), ("content", Json.str m.content)] ::
      AnthropicProvider.mapMessages rest

def AnthropicProvider.prepare_body (pc : ProvCfg) (messages : List Message) : Json :=
  Json.obj [("model", Json.str pc.model),
            ("max_tokens", Json.num 4096),
            ("messages", Json.arr (AnthropicProvider.mapMessages messages)),
            ("stream", Json.bool true)]

def GoogleProvider.prepare_headers (_pc : ProvCfg) : List (String × String) :=
  [("Content-Type", "application/json")]

/-- The `for msg in messages` loop of `GoogleProvider.prepare_body`:
`role = "user" if msg["role"] == "user" else "model"`. -/
def GoogleProvider.formatMessages : List Message → List Json
  | [] => []
  | m :: rest =>
    Json.obj [("role", Json.str (if m.role = "user" then "user" else "model")),
              ("parts", Json.arr [Json.obj [("text", Json.str m.content)]])] ::
      GoogleProvider.formatMessages rest

def GoogleProvider.generationConfig : Json :=
  Json.obj [("temperature", Json.num (0.7 : ℚ)),
            ("topK", Json.num 40),
            ("topP", Json.num (0.95 : ℚ)),
            ("maxOutputTokens", Json.num 8192)]

def GoogleProvider.prepare_body (_pc : ProvCfg) (messages : List Message) : Json :=
  Json.obj [("contents", Json.arr (GoogleProvider.formatMessages messages)),
            ("generationConfig", GoogleProvider.generationConfig)]

def OpenAIProvider.prepare_headers (pc : ProvCfg) : List (String × String) :=
  [("Authorization", "Bearer " ++ pc.api_key), ("Content-Type", "application/json")]

def OpenAIProvider.prepare_body (pc : ProvCfg) (messages : List Message) : Json :=
  Json.obj [("model", Json.str pc.model),
            ("messages", Json.arr (messages.map msgJson)),
            ("stream", Json.bool true)]

def QwenProvider.prepare_headers (pc : ProvCfg) : List (String × String) :=
  [("Authorization", "Bearer " ++ pc.api_key), ("Content-Type", "application/json")]

def QwenProvider.prepare_body (pc : ProvCfg) (messages : List Message) : Json :=
  Json.obj [("model", Json.str pc.model),
            ("input", Json.obj [("messages", Json.arr (messages.map msgJson))]),
            ("parameters", Json.obj [("stream", Json.bool true)])]

/-!
## Registry, configuration and dispatch

`AVAILABLE_MODELS` and `PROVIDERS` live in `build/lib/osram_cli/providers.py`;
`call_api`, `chat` and `switch_provider` live in
`build/lib/osram_cli/osram_cli.py` (`call_api` is duplicated verbatim in
`build/lib/osram_cli/providers.py`); `load_config`/`save_config` live in
`osram_cli/utils.py` (the copy in `build/lib` is logically identical).
The persisted configuration file is modelled by `FileCfg`, and the process
configuration as loaded by `Config`.  `call_api` is cut at the point of
`requests.post`: the model returns either a pre-flight failure or the
`HttpRequest` that the network layer would be handed, so "no network call"
is "the result is not a `request`".
-/

/-- The `AVAILABLE_MODELS` dict of `build/lib/osram_cli/providers.py`
(lines 10-71); `none` for a provider id it does not enumerate. -/
def AVAILABLE_MODELS (name : String) : Option (List String) :=
  if name = "zai" then some
    ["GLM-4.5", "GLM-4-Plus", "GLM-4.5-X", "GLM-4.5-Air", "GLM-4.5-AirX",
     "GLM-4.5-Flash", "GLM-4-32B-0414-128K", "ViduQ1-text", "viduq1-image",
     "viduq1-start-end", "vidu2-image", "vidu2-start-end", "vidu2-reference",
     "CogVideoX-3", "GLM-4.5V", "Vidu 2"]
  else if name = "claude" then some
    ["claude-3-opus-20240229", "claude-3-sonnet-20240229", "claude-3-haiku-20240307",
     "claude-sonnet-4-20250514", "claude-opus-4-1-20250805", "claude-opus-4-20250214",
     "claude-3-7-sonnet-20250219", "claude-3-5-sonnet-20241022", "claude-3-5-haiku-20241022"]
  else if name = "gemini" then some
    ["gemini-1.5-pro-latest", "gemini-1.5-flash-latest", "gemini-1.0-pro-latest",
     "gemini-2.5-flash", "gemini-2.5-pro"]
  else if name = "openai" then some
    ["gpt-4-turbo", "gpt-4", "gpt-3.5-turbo", "gpt-4o", "gpt-4o-mini",
     "gpt-o3-2025-04-16", "gpt-5-2025-08-07"]
  else if name = "qwen" then some
    ["Qwen3-Coder", "Qwen3-235B-A22B", "Qwen3-30B-A3B", "Qwen2.5-Max",
     "Qwen3-Coder-Flash", "Qwen2.5-Plus", "Qwen2.5-Turbo", "QVQ-Max",
     "Qwen2.5-Omni-7B", "qwen-turbo", "qwen-plus", "qwen-max", "qwen-max-longcontext"]
  else none

/-- The five provider classes registered in the `PROVIDERS` dict. -/
inductive ProviderClass where
  | zhipu : ProviderClass
  | anthropic : ProviderClass
  | google : ProviderClass
  | openai : ProviderClass
  | qwen : ProviderClass
deriving DecidableEq, Repr

/-- The `PROVIDERS` dict mapping provider ids to provider classes. -/
def PROVIDERS (name : String) : Option ProviderClass :=
  if name = "zai" then some ProviderClass.zhipu
  else if name = "claude" then some ProviderClass.anthropic
  else if name = "gemini" then some ProviderClass.google
  else if name = "openai" then some ProviderClass.openai
  else if name = "qwen" then some ProviderClass.qwen
  else none

def classHeaders : ProviderClass → ProvCfg → List (String × String)
  | ProviderClass.zhipu => ZhipuProvider.prepare_headers
  | ProviderClass.anthropic => AnthropicProvider.prepare_headers
  | ProviderClass.google => GoogleProvider.prepare_headers
  | ProviderClass.openai => OpenAIProvider.prepare_headers
  | ProviderClass.qwen => QwenProvider.prepare_headers

def classBody : ProviderClass → ProvCfg → List Message → Json
  | ProviderClass.zhipu => ZhipuProvider.prepare_body
  | ProviderClass.anthropic => AnthropicProvider.prepare_body
  | ProviderClass.google => GoogleProvider.prepare_body
  | ProviderClass.openai => OpenAIProvider.prepare_body
  | ProviderClass.qwen => QwenProvider.prepare_body

/-- The in-memory configuration as `load_config` returns it (restricted to
the keys the dispatch path reads).  `current_provider?` is `none` when the
stored dict lacks the key, matching `config.get("current_provider", "zai")`. -/
structure Config where
  current_provider? : Option String
  providers : List (String × ProvCfg)
deriving DecidableEq, Repr

/-- Python's `x or default` for an optional string argument: `None` and
`""` are falsy. -/
def orDefaultStr (p? : Option String) (d : String) : String :=
  match p? with
  | none => d
  | some p => if p = "" then d else p

/-- `endpoint.format(model=..., api_key=...)`: substitute the `{model}` and
`{api_key}` placeholders. -/
def formatEndpoint (e model apiKey : String) : String :=
  strReplace (strReplace e "{model}" model) "{api_key}" apiKey

/-- The streaming POST that `call_api` hands to `requests.post`. -/
structure HttpRequest where
  endpoint : String
  headers : List (String × String)
  body : Json

/-- Outcome of `call_api` up to the point of network I/O.  The code
signals every pre-flight failure by printing and returning `None`; the
model distinguishes the two `return None` sites. -/
inductive CallResult where
  | notConfigured : CallResult
  | notImplemented : CallResult
  | request (r : HttpRequest) : CallResult

def CallResult.isRequest : CallResult → Bool
  | CallResult.request _ => true
  | _ => false

/-- The request `call_api` builds once all its checks have passed. -/
def mkRequest (k : ProviderClass) (pc : ProvCfg) (messages : List Message) : HttpRequest :=
  { endpoint := formatEndpoint pc.endpoint pc.model pc.api_key,
    headers := classHeaders k pc,
    body := classBody k pc messages }

/-- `call_api` of `build/lib/osram_cli/osram_cli.py` lines 300-346
(duplicated at `build/lib/osram_cli/providers.py` lines 262-310), cut at
`requests.post`.  The configuration has already been loaded. -/
def call_api (cfg : Config) (messages : List Message)
    (provider_name : Option String) (model_name : Option String) : CallResult :=
  let name := orDefaultStr provider_name (cfg.current_provider?.getD "zai")
  match cfg.providers.lookup name with
  | none => CallResult.notConfigured
  | some pc0 =>
    let pc := match model_name with
      | some m => if m = "" then pc0 else { pc0 with model := m }
      | none => pc0
    match PROVIDERS name with
    | none => CallResult.notImplemented
    | some k => CallResult.request (mkRequest k pc messages)

/-- Outcome of the single-message `chat` command of
`build/lib/osram_cli/osram_cli.py` (lines 1240-1281), up to its `call_api`
invocation. -/
inductive ChatResult where
  | notConfigured : ChatResult
  | missingCredential : ChatResult
  | dispatched (c : CallResult) : ChatResult

/-- The pre-flight part of the `chat` command in single-message mode: the
provider-configured check, the `api_key` check, the model default, then
`call_api`. -/
def chat (cfg : Config) (message : String)
    (provider : Option String) (model : Option String) : ChatResult :=
  let p := orDefaultStr provider (cfg.current_provider?.getD "zai")
  match cfg.providers.lookup p with
  | none => ChatResult.notConfigured
  | some pc =>
    if pc.api_key = "" then ChatResult.missingCredential
    else
      let m := orDefaultStr model pc.model
      ChatResult.dispatched
        (call_api cfg [{ role := "user", content := message }] (some p) (some m))

/-- `config["providers"][current_provider]["model"] = model_name`. -/
def setModel (ps : List (String × ProvCfg)) (cur m : String) : List (String × ProvCfg) :=
  ps.map (fun kv => if kv.1 = cur then (kv.1, { kv.2 with model := m }) else kv)

/-- Outcome of `switch_provider`: the returned boolean and the
configuration passed to `save_config`, when the save line was reached. -/
structure SwitchOut where
  result : Bool
  saved : Option Config
deriving DecidableEq, Repr

/-- `switch_provider` of `build/lib/osram_cli/osram_cli.py` lines 253-280.
The file write of `save_config` is taken to succeed, so the function
returns `true` exactly when it reaches its final `return
save_config(config)` line. -/
def switch_provider (cfg0 : Config) (provider_name model_name : Option String) : SwitchOut :=
  -- `if provider_name:` block
  let step1 : Option Config :=
    match provider_name with
    | some p =>
      if p = "" then some cfg0
      else if (cfg0.providers.lookup p).isSome then
        some { cfg0 with current_provider? := some p }
      else none
    | none => some cfg0
  match step1 with
  | none => { result := false, saved := none }
  | some cfg1 =>
    -- `if model_name:` block
    match model_name with
    | some m =>
      if m = "" then { result := true, saved := some cfg1 }
      else
        let cur := cfg1.current_provider?.getD "zai"
        if (cfg1.providers.lookup cur).isSome then
          match AVAILABLE_MODELS cur with
          | some ms =>
            if m ∈ ms then
              { result := true,
                saved := some { cfg1 with providers := setModel cfg1.providers cur m } }
            else { result := false, saved := none }
          | none =>
            { result := true,
              saved := some { cfg1 with providers := setModel cfg1.providers cur m } }
        else { result := false, saved := none }
    | none => { result := true, saved := some cfg1 }

/-- `validate_model` of `osram_cli/utils.py` lines 191-197. -/
def validate_model (provider_name model_name : String) : Bool :=
  match AVAILABLE_MODELS provider_name with
  | none => false
  | some ms => model_name ∈ ms

/-!
## The persisted configuration file and `load_config`

`load_config` (`osram_cli/utils.py` lines 11-120) is not pure: when the
configuration file is missing it writes a default configuration, and when
the file is in the legacy single-provider format it writes a migrated one.
`FileCfg` models the stored dict restricted to the keys `load_config`
inspects: the legacy format is the absence of the `"providers"` key.
-/

structure FileCfg where
  current_provider? : Option String
  providers? : Option (List (String × ProvCfg))
  api_key? : Option String
  model? : Option String
deriving DecidableEq, Repr

def zaiEndpoint : String := "https://open.bigmodel.cn/api/paas/v4/chat/completions"
def claudeEndpoint : String := "https://api.anthropic.com/v1/messages"
def geminiEndpoint : String :=
  "https://generativelanguage.googleapis.com/v1beta/models/{model}:streamGenerateContent?key={api_key}"
def openaiEndpoint : String := "https://api.openai.com/v1/chat/completions"
def qwenEndpoint : String :=
  "https://dashscope.aliyuncs.com/api/v1/services/aigc/text-generation/generation"

/-- The non-zai provider entries shared by the default configuration and
the legacy-format migration (`osram_cli/utils.py` lines 25-44 and 94-113). -/
def defaultTailProviders : List (String × ProvCfg) :=
  [("claude", { api_key := "", model := "claude-3-opus-20240229", endpoint := claudeEndpoint }),
   ("gemini", { api_key := "", model := "gemini-1.5-pro-latest", endpoint := geminiEndpoint }),
   ("openai", { api_key := "", model := "gpt-4-turbo", endpoint := openaiEndpoint }),
   ("qwen", { api_key := "", model := "Qwen3-Coder", endpoint := qwenEndpoint })]

/-- The `providers` table of the default configuration written on first
run. -/
def defaultProviders : List (String × ProvCfg) :=
  ("zai", { api_key := "", model := "GLM-4-Plus", endpoint := zaiEndpoint }) ::
    defaultTailProviders

/-- The default configuration file created when none exists. -/
def defaultFileCfg : FileCfg :=
  { current_provider? := some "zai", providers? := some defaultProviders,
    api_key? := none, model? := none }

/-- The legacy-format migration: the old top-level `api_key`/`model` become
the zai entry, the other four providers are added with empty keys, and
`current_provider` is set to `"zai"`. -/
def migrateFile (f : FileCfg) : FileCfg :=
  { f with
    providers? := some
      (("zai", { api_key := f.api_key?.getD "", model := f.model?.getD "GLM-4-Plus",
                 endpoint := zaiEndpoint }) :: defaultTailProviders),
    current_provider? := some "zai" }

def fileToConfig (f : FileCfg) : Config :=
  { current_provider? := f.current_provider?, providers := f.providers?.getD [] }

/-- `load_config` as a state transition on the stored file: returns the
loaded configuration and the file newly written by `save_config`, if any. -/
def load_config (store : Option FileCfg) : Config × Option FileCfg :=
  match store with
  | none => (fileToConfig defaultFileCfg, some defaultFileCfg)
  | some f =>
    match f.providers? with
    | some _ => (fileToConfig f, none)
    | none => (fileToConfig (migrateFile f), some (migrateFile f))

/-- `call_api` including its `load_config()` call, as a state transition on
the stored configuration file; the second component is the store after the
call. -/
def call_api_io (store : Option FileCfg) (messages : List Message)
    (provider_name model_name : Option String) : CallResult × Option FileCfg :=
  let (cfg, written) := load_config store
  (call_api cfg messages provider_name model_name,
   match written with
   | some w => some w
   | none => store)

/-!
## Supporting lemmas

Every fragment a decoder yields passed its `if content:` truthiness guard;
the lemmas below make this available for each envelope extraction and each
line-step shape.
-/

/-- An extraction result never wraps a falsy fragment. -/
def okSomeTruthy (r : Except PyErr (Option Json)) : Prop :=
  ∀ j, r = Except.ok (some j) → pyTruthy j = true

theorem okSomeTruthy_bind {α : Type} (m : Except PyErr α)
    (f : α → Except PyErr (Option Json)) (hf : ∀ x, okSomeTruthy (f x)) :
    okSomeTruthy (m >>= f) := by
  cases m with
  | error e => intro j h; nomatch h
  | ok x => intro j h; exact hf x j h

theorem okSomeTruthy_none : okSomeTruthy (Except.ok none) := by
  intro j h
  nomatch h

theorem okSomeTruthy_gate (c : Json) :
    okSomeTruthy (if pyTruthy c then pure (some c) else pure none) := by
  intro j h
  split at h
  · next hc =>
    have hx : some c = some j := by
      simpa [pure, Except.pure] using h
    cases hx
    assumption
  · next => simp [pure, Except.pure] at h

theorem choicesDeltaExtract_truthy (data : Json) :
    okSomeTruthy (choicesDeltaExtract data) := by
  unfold choicesDeltaExtract
  apply okSomeTruthy_bind; intro b
  split
  · apply okSomeTruthy_bind; intro ch
    split
    · apply okSomeTruthy_bind; intro e0
      apply okSomeTruthy_bind; intro delta
      apply okSomeTruthy_bind; intro content
      exact okSomeTruthy_gate content
    · exact okSomeTruthy_none
  · exact okSomeTruthy_none

theorem contentBlockDeltaExtract_truthy (data : Json) :
    okSomeTruthy (contentBlockDeltaExtract data) := by
  unfold contentBlockDeltaExtract
  apply okSomeTruthy_bind; intro t
  split
  · apply okSomeTruthy_bind; intro delta
    apply okSomeTruthy_bind; intro content
    exact okSomeTruthy_gate content
  · exact okSomeTruthy_none

theorem candidatesExtract_truthy (data : Json) :
    okSomeTruthy (candidatesExtract data) := by
  unfold candidatesExtract
  apply okSomeTruthy_bind; intro b
  split
  · apply okSomeTruthy_bind; intro cand
    split
    · apply okSomeTruthy_bind; intro c0
      apply okSomeTruthy_bind; intro content
      apply okSomeTruthy_bind; intro parts
      apply okSomeTruthy_bind; intro p0
      apply okSomeTruthy_bind; intro text
      exact okSomeTruthy_gate text
    · exact okSomeTruthy_none
  · exact okSomeTruthy_none

theorem outputChoicesExtract_truthy (data : Json) :
    okSomeTruthy (outputChoicesExtract data) := by
  unfold outputChoicesExtract
  apply okSomeTruthy_bind; intro b
  split
  · apply okSomeTruthy_bind; intro out
    apply okSomeTruthy_bind; intro b2
    split
    · apply okSomeTruthy_bind; intro ch
      apply okSomeTruthy_bind; intro c0
      apply okSomeTruthy_bind; intro msg
      apply okSomeTruthy_bind; intro content
      exact okSomeTruthy_gate content
    · exact okSomeTruthy_none
  · exact okSomeTruthy_none

theorem ofExtract_emit {r : Except PyErr (Option Json)} {j : Json}
    (h : ofExtract r = LineOut.emit j) : r = Except.ok (some j) := by
  cases r with
  | error e => nomatch h
  | ok o =>
    cases o with
    | none => nomatch h
    | some j2 => cases h; rfl

theorem sseLineStrict_emit_truthy (ex : Json → Except PyErr (Option Json))
    (hex : ∀ d, okSomeTruthy (ex d)) (l : String) (j : Json)
    (h : sseLineStrict ex l = LineOut.emit j) : pyTruthy j = true := by
  unfold sseLineStrict at h
  split at h
  · nomatch h
  · split at h
    · cases hjl : json_loads (strDropN l 6) with
      | error e => rw [hjl] at h; nomatch h
      | ok data => rw [hjl] at h; exact hex data j (ofExtract_emit h)
    · nomatch h

theorem sseLineCaught_emit_truthy (ex : Json → Except PyErr (Option Json))
    (hex : ∀ d, okSomeTruthy (ex d)) (l : String) (j : Json)
    (h : sseLineCaught ex l = LineOut.emit j) : pyTruthy j = true := by
  unfold sseLineCaught at h
  split at h
  · nomatch h
  · split at h
    · cases hjl : json_loads (strDropN l 6) with
      | error e => rw [hjl] at h; nomatch h
      | ok data => rw [hjl] at h; exact hex data j (ofExtract_emit h)
    · nomatch h

theorem sseLineDone_emit_truthy (ex : Json → Except PyErr (Option Json))
    (hex : ∀ d, okSomeTruthy (ex d)) (l : String) (j : Json)
    (h : sseLineDone ex l = LineOut.emit j) : pyTruthy j = true := by
  unfold sseLineDone at h
  simp only [] at h
  split at h
  · nomatch h
  · split at h
    · split at h
      · nomatch h
      · cases hjl : json_loads (strDropN l 6) with
        | error e => rw [hjl] at h; nomatch h
        | ok data => rw [hjl] at h; exact hex data j (ofExtract_emit h)
    · nomatch h

theorem rawLineCaught_emit_truthy (ex : Json → Except PyErr (Option Json))
    (hex : ∀ d, okSomeTruthy (ex d)) (l : String) (j : Json)
    (h : rawLineCaught ex l = LineOut.emit j) : pyTruthy j = true := by
  unfold rawLineCaught at h
  split at h
  · nomatch h
  · cases hjl : json_loads l with
    | error e => rw [hjl] at h; nomatch h
    | ok data => rw [hjl] at h; exact hex data j (ofExtract_emit h)

/-- Every fragment of a run was emitted by some line step. -/
theorem runStream_mem_truthy (step : String → LineOut)
    (hstep : ∀ l j, step l = LineOut.emit j → pyTruthy j = true)
    (lines : List String) (j : Json)
    (hj : j ∈ (runStream step lines).frags) : pyTruthy j = true := by
  induction lines with
  | nil => simp [runStream] at hj
  | cons l rest ih =>
    unfold runStream at hj
    cases hl : step l with
    | skip => rw [hl] at hj; exact ih hj
    | emit j2 =>
      rw [hl] at hj
      simp only [List.mem_cons] at hj
      cases hj with
      | inl he => exact he ▸ hstep l j2 hl
      | inr hm => exact ih hm
    | fail e => rw [hl] at hj; simp at hj

theorem truthy_ne_emptyStr {j : Json} (h : pyTruthy j = true) : j ≠ Json.str "" := by
  intro he
  subst he
  simp [pyTruthy] at h

/-!
## Concrete fixtures
-/

/-- A well-formed zai/openai fragment line carrying the text `hi`. -/
def zaiGoodLine : String := "data: \x7b\"choices\":[\x7b\"delta\":\x7b\"content\":\"hi\"\x7d\x7d]\x7d"

/-- A well-formed claude fragment line carrying the text `yo`. -/
def claudeGoodLine : String := "data: \x7b\"type\":\"content_block_delta\",\"delta\":\x7b\"text\":\"yo\"\x7d\x7d"

/-- A `data: `-prefixed line whose payload is not valid JSON. -/
def malformedLine : String := "data: \x7bbroken"

/-- A well-formed qwen line whose content field holds the number 5. -/
def qwenNumLine : String := "\x7b\"output\":\x7b\"choices\":[\x7b\"message\":\x7b\"content\":5\x7d\x7d]\x7d\x7d"

/-- A configuration with zai configured but an empty api_key. -/
def cfgEmptyKey : Config :=
  { current_provider? := some "zai",
    providers := [("zai", { api_key := "", model := "GLM-4-Plus", endpoint := zaiEndpoint })] }

/-- A configuration with zai configured and a non-empty api_key. -/
def cfgZaiKeyed : Config :=
  { current_provider? := some "zai",
    providers := [("zai", { api_key := "sk-test", model := "GLM-4-Plus", endpoint := zaiEndpoint })] }

/-- The `model` field of the JSON body of a dispatched request. -/
def CallResult.bodyField (c : CallResult) (k : String) : Option Json :=
  match c with
  | CallResult.request r =>
    match r.body with
    | Json.obj kvs => kvs.lookup k
    | _ => none
  | _ => none

/-!
## Claims
-/

/-- Claim C1: the claim says a line of malformed JSON is silently skipped
by every provider's stream decoder and never aborts the stream.  In the
`osram_cli/providers.py` copy the zai, claude and openai decoders have no
`try`/`except`, so a malformed `data: ` payload raises `JSONDecodeError`
and aborts the stream, and the well-formed fragment line right after the
corrupt line is NOT emitted; the `build/lib` copy of the same decoders
(and the gemini/qwen decoders of both copies) skip the bad line and still
emit the following fragment, as the claim states. -/
theorem C1_malformed_line_aborts_src_decoder :
    Src.ZhipuProvider.parse_stream [malformedLine, zaiGoodLine] =
      { frags := [], error := some PyErr.jsonDecodeErr } ∧
    Src.AnthropicProvider.parse_stream [malformedLine, claudeGoodLine] =
      { frags := [], error := some PyErr.jsonDecodeErr } ∧
    Src.OpenAIProvider.parse_stream [malformedLine, zaiGoodLine] =
      { frags := [], error := some PyErr.jsonDecodeErr } ∧
    BuildLib.ZhipuProvider.parse_stream [malformedLine, zaiGoodLine] =
      { frags := [Json.str "hi"], error := none } ∧
    BuildLib.AnthropicProvider.parse_stream [malformedLine, claudeGoodLine] =
      { frags := [Json.str "yo"], error := none } ∧
    Src.GoogleProvider.parse_stream ["nonsense", "\x7b\"candidates\":[\x7b\"content\":\x7b\"parts\":[\x7b\"text\":\"g\"\x7d]\x7d\x7d]\x7d"] =
      { frags := [Json.str "g"], error := none } :=
  ⟨rfl, rfl, rfl, rfl, rfl, rfl⟩

/-- Claim C2: the claim says a `data: ` line with a `[DONE]` or empty
payload produces no fragment and no error in the zai and openai decoders.
In the `osram_cli/providers.py` copy those decoders have no `[DONE]`/empty
check and no `try`/`except`, so `json.loads("[DONE]")` (and
`json.loads("")`) raises and aborts the stream; the `build/lib` copy
skips such lines silently as the claim states. -/
theorem C2_done_line_raises_in_src_decoder :
    Src.OpenAIProvider.parse_stream ["data: [DONE]"] =
      { frags := [], error := some PyErr.jsonDecodeErr } ∧
    Src.ZhipuProvider.parse_stream ["data: [DONE]"] =
      { frags := [], error := some PyErr.jsonDecodeErr } ∧
    Src.OpenAIProvider.parse_stream ["data: "] =
      { frags := [], error := some PyErr.jsonDecodeErr } ∧
    BuildLib.OpenAIProvider.parse_stream ["data: [DONE]", "data: "] =
      { frags := [], error := none } ∧
    BuildLib.ZhipuProvider.parse_stream ["data: [DONE]", "data: "] =
      { frags := [], error := none } :=
  ⟨rfl, rfl, rfl, rfl, rfl⟩

/-- Claim C3 (counterexample): `call_api` itself performs no credential
check: with zai configured with an empty api_key, `call_api` still reaches
`requests.post` (the result is a built `HttpRequest`), contradicting the
claim that dispatch fails with MissingCredential before any network I/O. -/
theorem C3_counterexample :
    (cfgEmptyKey.providers.lookup "zai").map ProvCfg.api_key = some "" ∧
    (call_api cfgEmptyKey [{ role := "user", content := "hi" }] (some "zai") none).isRequest = true :=
  ⟨rfl, rfl⟩

/-- Claim C3 (amended): the empty-api_key check lives in the `chat`
command, not in `call_api`: when the resolved provider is configured with
an empty api_key, `chat` returns the missing-credential failure and never
reaches `call_api`, so no request is dispatched on that path. -/
theorem C3_amended (cfg : Config) (message : String) (p? m? : Option String) (pc : ProvCfg)
    (h1 : cfg.providers.lookup (orDefaultStr p? (cfg.current_provider?.getD "zai")) = some pc)
    (h2 : pc.api_key = "") :
    chat cfg message p? m? = ChatResult.missingCredential ∧
    ∀ c, chat cfg message p? m? ≠ ChatResult.dispatched c := by
  have hmain : chat cfg message p? m? = ChatResult.missingCredential := by
    simp [chat, h1, h2]
  exact ⟨hmain, fun c hc => by rw [hmain] at hc; nomatch hc⟩

/-- Claim C3 witness: the amended statement at a concrete configuration. -/
theorem C3_amended_witness :
    chat cfgEmptyKey "hi" (some "zai") none = ChatResult.missingCredential :=
  (C3_amended cfgEmptyKey "hi" (some "zai") none
    { api_key := "", model := "GLM-4-Plus", endpoint := zaiEndpoint } rfl rfl).1

/-- Claim C4 (counterexample): `call_api` performs no model validation: a
model override outside the provider's `AVAILABLE_MODELS` list (here
`no-such-model` for zai, rejected by `validate_model`) is applied verbatim
and the request is still built, contradicting the claim that dispatch
fails with InvalidModel and performs no network call. -/
theorem C4_counterexample :
    validate_model "zai" "no-such-model" = false ∧
    (call_api cfgZaiKeyed [{ role := "user", content := "hi" }] (some "zai") (some "no-such-model")).isRequest = true ∧
    CallResult.bodyField
      (call_api cfgZaiKeyed [{ role := "user", content := "hi" }] (some "zai") (some "no-such-model"))
      "model" = some (Json.str "no-such-model") := by
  refine ⟨by decide, rfl, rfl⟩

/-- Claim C4 (amended): for every dispatch call with an explicit non-empty
model override and a configured, implemented provider, `call_api` applies
the override verbatim — it never consults `AVAILABLE_MODELS` — and
proceeds to build the network request with that model. -/
theorem C4_amended (cfg : Config) (messages : List Message) (p? : Option String)
    (m : String) (pc : ProvCfg) (k : ProviderClass)
    (h1 : cfg.providers.lookup (orDefaultStr p? (cfg.current_provider?.getD "zai")) = some pc)
    (h2 : PROVIDERS (orDefaultStr p? (cfg.current_provider?.getD "zai")) = some k)
    (h3 : m ≠ "") :
    call_api cfg messages p? (some m) =
      CallResult.request (mkRequest k { pc with model := m } messages) := by
  simp [call_api, h1, h2, h3]

/-- Claim C4 witness: the amended statement at a concrete configuration
and a model that is not in the registry's list for zai. -/
theorem C4_amended_witness :
    call_api cfgZaiKeyed [{ role := "user", content := "hi" }] (some "zai") (some "no-such-model") =
      CallResult.request (mkRequest ProviderClass.zhipu
        { api_key := "sk-test", model := "no-such-model", endpoint := zaiEndpoint }
        [{ role := "user", content := "hi" }]) ∧
    ¬ ("no-such-model" ∈ (AVAILABLE_MODELS "zai").getD []) :=
  ⟨C4_amended cfgZaiKeyed [{ role := "user", content := "hi" }] (some "zai") "no-such-model"
    { api_key := "sk-test", model := "GLM-4-Plus", endpoint := zaiEndpoint }
    ProviderClass.zhipu rfl rfl (by decide), by decide⟩

/-- Claim C5: a dispatch call naming a provider id absent from the
configuration's providers mapping returns the ProviderNotConfigured
failure and never builds a network request. -/
theorem C5_confirmed (cfg : Config) (messages : List Message) (p? m? : Option String)
    (h : cfg.providers.lookup (orDefaultStr p? (cfg.current_provider?.getD "zai")) = none) :
    call_api cfg messages p? m? = CallResult.notConfigured ∧
    ∀ r, call_api cfg messages p? m? ≠ CallResult.request r := by
  have hmain : call_api cfg messages p? m? = CallResult.notConfigured := by
    simp [call_api, h]
  exact ⟨hmain, fun r hr => by rw [hmain] at hr; nomatch hr⟩

/-- Claim C5 witness: the statement at a concrete configuration without a
claude entry. -/
theorem C5_witness :
    call_api cfgZaiKeyed [] (some "claude") none = CallResult.notConfigured :=
  (C5_confirmed cfgZaiKeyed [] (some "claude") none rfl).1

theorem formatMessages_eq_map (ms : List Message) :
    GoogleProvider.formatMessages ms = ms.map (fun m =>
      Json.obj [("role", Json.str (if m.role = "user" then "user" else "model")),
                ("parts", Json.arr [Json.obj [("text", Json.str m.content)]])]) := by
  induction ms with
  | nil => rfl
  | cons m rest ih => simp [GoogleProvider.formatMessages, ih]

/-- A system-role message used as the C6 counterexample input. -/
def sysMsg : Message := { role := "system", content := "be brief" }

/-- Claim C6 (counterexample): the claim says only `assistant` is remapped
to `model` and every other role is forwarded unchanged; but the gemini
formatter maps every non-user role to `model`, so a `system` message comes
out with role `model`, not `system`. -/
theorem C6_counterexample :
    GoogleProvider.prepare_body
      { api_key := "k", model := "gemini-2.5-pro", endpoint := geminiEndpoint } [sysMsg] =
      Json.obj [("contents", Json.arr [Json.obj
                  [("role", Json.str "model"),
                   ("parts", Json.arr [Json.obj [("text", Json.str "be brief")]])]]),
                ("generationConfig", GoogleProvider.generationConfig)] ∧
    sysMsg.role = "system" ∧ ("model" : String) ≠ "system" :=
  ⟨rfl, rfl, by decide⟩

/-- Claim C6 (amended): the gemini request formatter sends no auth header
and builds a body whose contents list maps each message to
`{role, parts:[{text}]}` where role `user` is kept and every other role
(assistant and system alike) is replaced by `model`, plus the fixed
generationConfig of sampling parameters. -/
theorem C6_amended (pc : ProvCfg) (messages : List Message) :
    (GoogleProvider.prepare_headers pc).lookup "Authorization" = none ∧
    (GoogleProvider.prepare_headers pc).lookup "x-api-key" = none ∧
    GoogleProvider.prepare_body pc messages =
      Json.obj [("contents", Json.arr (messages.map (fun m =>
                  Json.obj [("role", Json.str (if m.role = "user" then "user" else "model")),
                            ("parts", Json.arr [Json.obj [("text", Json.str m.content)]])]))),
                ("generationConfig", Json.obj
                  [("temperature", Json.num (0.7 : ℚ)), ("topK", Json.num 40),
                   ("topP", Json.num (0.95 : ℚ)), ("maxOutputTokens", Json.num 8192)])] := by
  refine ⟨rfl, rfl, ?_⟩
  simp [GoogleProvider.prepare_body, GoogleProvider.generationConfig, formatMessages_eq_map]

theorem mapMessages_eq_map (ms : List Message) :
    AnthropicProvider.mapMessages ms = ms.map (fun m =>
      Json.obj [("role", Json.str m.role), ("content", Json.str m.content)]) := by
  induction ms with
  | nil => rfl
  | cons m rest ih => simp [AnthropicProvider.mapMessages, ih]

/-- Claim C7: the claude request formatter produces headers containing
`x-api-key` set to the api_key and the fixed `anthropic-version` header,
and a body `{model, max_tokens: 4096, messages, stream: true}` whose
messages map each conversation entry to a `{role, content}` pair with the
role forwarded verbatim — in particular a `system` entry stays
`role: system`. -/
theorem C7_confirmed (pc : ProvCfg) (messages : List Message) :
    (AnthropicProvider.prepare_headers pc).lookup "x-api-key" = some pc.api_key ∧
    (AnthropicProvider.prepare_headers pc).lookup "anthropic-version" = some "2023-06-01" ∧
    AnthropicProvider.prepare_body pc messages =
      Json.obj [("model", Json.str pc.model),
                ("max_tokens", Json.num 4096),
                ("messages", Json.arr (messages.map (fun m =>
                  Json.obj [("role", Json.str m.role), ("content", Json.str m.content)]))),
                ("stream", Json.bool true)] := by
  refine ⟨rfl, rfl, ?_⟩
  simp [AnthropicProvider.prepare_body, mapMessages_eq_map]

/-- Claim C8 (counterexample): dispatch is not free of configuration
writes: when no configuration file exists, the `load_config()` call inside
`call_api` writes the default configuration file, so a dispatch call
starting from an absent store changes the persisted configuration. -/
theorem C8_counterexample :
    (call_api_io none [{ role := "user", content := "hi" }] none none).2 = some defaultFileCfg ∧
    some defaultFileCfg ≠ (none : Option FileCfg) :=
  ⟨rfl, by simp⟩

/-- Claim C8 (amended): for every configuration file already in the
current format (a `providers` table is present), dispatch leaves the
persisted configuration — including the Active Selection — unchanged: it
only reads it. The only writes happen in `load_config` when the file is
missing or in the legacy format. -/
theorem C8_amended (f : FileCfg) (ps : List (String × ProvCfg)) (messages : List Message)
    (p? m? : Option String) (h : f.providers? = some ps) :
    (call_api_io (some f) messages p? m?).2 = some f := by
  simp [call_api_io, load_config, h]

/-- Claim C8 witness: the amended statement at the default configuration
file. -/
theorem C8_amended_witness :
    (call_api_io (some defaultFileCfg) [] none none).2 = some defaultFileCfg :=
  C8_amended defaultFileCfg defaultProviders [] none none rfl

/-- Claim C9 (counterexample): fragments need not be strings: a qwen line
whose content field holds the JSON number 5 makes the decoder yield the
number itself (Python yields whatever truthy value sits in the field), so
"every fragment is a non-empty string" fails as stated. -/
theorem C9_counterexample :
    Src.QwenProvider.parse_stream [qwenNumLine] = { frags := [Json.num 5], error := none } ∧
    Json.isStr (Json.num 5) = false :=
  ⟨rfl, rfl⟩

/-- Claim C9 (amended): for every provider variant's stream decoder (both
copies) and every input line stream, every fragment yielded is a truthy
value — in particular the empty string is never emitted, so a reply with
no content surfaces as zero fragments. -/
theorem C9_amended (lines : List String) (j : Json)
    (h : j ∈ (Src.ZhipuProvider.parse_stream lines).frags ∨
         j ∈ (Src.AnthropicProvider.parse_stream lines).frags ∨
         j ∈ (Src.GoogleProvider.parse_stream lines).frags ∨
         j ∈ (Src.OpenAIProvider.parse_stream lines).frags ∨
         j ∈ (Src.QwenProvider.parse_stream lines).frags ∨
         j ∈ (BuildLib.ZhipuProvider.parse_stream lines).frags ∨
         j ∈ (BuildLib.AnthropicProvider.parse_stream lines).frags ∨
         j ∈ (BuildLib.OpenAIProvider.parse_stream lines).frags) :
    pyTruthy j = true ∧ j ≠ Json.str "" := by
  have ht : pyTruthy j = true := by
    rcases h with h | h | h | h | h | h | h | h
    · exact runStream_mem_truthy _
        (fun l j2 => sseLineStrict_emit_truthy _ choicesDeltaExtract_truthy l j2) lines j h
    · exact runStream_mem_truthy _
        (fun l j2 => sseLineStrict_emit_truthy _ contentBlockDeltaExtract_truthy l j2) lines j h
    · exact runStream_mem_truthy _
        (fun l j2 => rawLineCaught_emit_truthy _ candidatesExtract_truthy l j2) lines j h
    · exact runStream_mem_truthy _
        (fun l j2 => sseLineStrict_emit_truthy _ choicesDeltaExtract_truthy l j2) lines j h
    · exact runStream_mem_truthy _
        (fun l j2 => rawLineCaught_emit_truthy _ outputChoicesExtract_truthy l j2) lines j h
    · exact runStream_mem_truthy _
        (fun l j2 => sseLineDone_emit_truthy _ choicesDeltaExtract_truthy l j2) lines j h
    · exact runStream_mem_truthy _
        (fun l j2 => sseLineCaught_emit_truthy _ contentBlockDeltaExtract_truthy l j2) lines j h
    · exact runStream_mem_truthy _
        (fun l j2 => sseLineDone_emit_truthy _ choicesDeltaExtract_truthy l j2) lines j h
  exact ⟨ht, truthy_ne_emptyStr ht⟩

/-- Claim C9 witness: the amended statement at a concrete stream whose
zai decoder yields the fragment `hi`. -/
theorem C9_amended_witness :
    pyTruthy (Json.str "hi") = true ∧ Json.str "hi" ≠ Json.str "" := by
  have hmem : Json.str "hi" ∈ (Src.ZhipuProvider.parse_stream [zaiGoodLine]).frags := by
    have he : (Src.ZhipuProvider.parse_stream [zaiGoodLine]).frags = [Json.str "hi"] := rfl
    rw [he]
    exact List.mem_singleton.mpr rfl
  exact C9_amended [zaiGoodLine] (Json.str "hi") (Or.inl hmem)

/-- The provider id the model-switch block of `switch_provider` works
against: the freshly requested provider when one was given (and truthy),
else the persisted current provider. -/
def requestedCurrent (cfg : Config) (p? : Option String) : String :=
  match p? with
  | some p => if p = "" then cfg.current_provider?.getD "zai" else p
  | none => cfg.current_provider?.getD "zai"

/-- Spec-side validation predicate for `switch_provider`, following the
claim: a requested provider must be configured, and a requested model must
be in the known model list of the (new) current provider when that
provider's models are enumerated. -/
def switchValidB (cfg : Config) (p? m? : Option String) : Bool :=
  (match p? with
   | some p => (p == "") || (cfg.providers.lookup p).isSome
   | none => true) &&
  (match m? with
   | some m =>
     (m == "") ||
       ((cfg.providers.lookup (requestedCurrent cfg p?)).isSome &&
        (match AVAILABLE_MODELS (requestedCurrent cfg p?) with
         | some ms => decide (m ∈ ms)
         | none => true))
   | none => true)

/-- Claim C10: `switch_provider` is atomic with respect to the persisted
configuration: `save_config` is reached (and `True` returned) exactly when
every requested validation passes — an unconfigured requested provider, an
unconfigured current provider for a model switch, or a model outside the
enumerated list all yield `False` with no save. -/
theorem C10_confirmed (cfg : Config) (p? m? : Option String) :
    ((switch_provider cfg p? m?).saved).isSome = switchValidB cfg p? m? ∧
    (switch_provider cfg p? m?).result = switchValidB cfg p? m? := by
  cases p? with
  | none =>
    cases m? with
    | none => simp [switch_provider, switchValidB]
    | some m =>
      by_cases hm : m = ""
      · simp [switch_provider, switchValidB, requestedCurrent, hm]
      · simp only [switch_provider, switchValidB, requestedCurrent, hm, if_false,
          beq_iff_eq, if_neg hm]
        cases hcur : (cfg.providers.lookup (cfg.current_provider?.getD "zai")).isSome with
        | false => simp [hcur, hm]
        | true =>
          cases hA : AVAILABLE_MODELS (cfg.current_provider?.getD "zai") with
          | none => simp [hcur, hA, hm]
          | some ms =>
            by_cases hmem : m ∈ ms
            · simp [hcur, hA, hmem, hm]
            · simp [hcur, hA, hmem, hm]
  | some p =>
    by_cases hp : p = ""
    · subst hp
      cases m? with
      | none => simp [switch_provider, switchValidB]
      | some m =>
        by_cases hm : m = ""
        · simp [switch_provider, switchValidB, requestedCurrent, hm]
        · simp only [switch_provider, switchValidB, requestedCurrent,
            beq_iff_eq, if_neg hm]
          cases hcur : (cfg.providers.lookup (cfg.current_provider?.getD "zai")).isSome with
          | false => simp [hcur, hm]
          | true =>
            cases hA : AVAILABLE_MODELS (cfg.current_provider?.getD "zai") with
            | none => simp [hcur, hA, hm]
            | some ms =>
              by_cases hmem : m ∈ ms
              · simp [hcur, hA, hmem, hm]
              · simp [hcur, hA, hmem, hm]
    · cases hlk : (cfg.providers.lookup p).isSome with
      | false =>
        cases m? with
        | none => simp [switch_provider, switchValidB, hp, hlk]
        | some m => simp [switch_provider, switchValidB, hp, hlk]
      | true =>
        cases m? with
        | none => simp [switch_provider, switchValidB, hp, hlk]
        | some m =>
          by_cases hm : m = ""
          · simp [switch_provider, switchValidB, requestedCurrent, hp, hlk, hm]
          · simp only [switch_provider, switchValidB, requestedCurrent,
              beq_iff_eq, if_neg hp, if_neg hm, hlk]
            cases hA : AVAILABLE_MODELS p with
            | none => simp [hp, hlk, hA, hm]
            | some ms =>
              by_cases hmem : m ∈ ms
              · simp [hp, hlk, hA, hmem, hm]
              · simp [hp, hlk, hA, hmem, hm]
